import Mathlib

/-!
# Verification of the tomatl session timer (src/main.rs)

A shallow embedding of `src/main.rs`.  The program is a CLI session timer:
it opens/initializes a SQLite database `focus.db`, parses a mode and a
`minutes : f32` argument, runs a one-tick-per-second countdown driving a
progress bar, then fires a desktop notification (`.unwrap()`!), plays a
sound (error merely printed), and appends a session row, propagating store
errors out of `main`.

Embedding choices:
* `f32` values are embedded as exact rationals `ℚ`.  All concrete inputs
  used in theorems below (`0`, `1`, `1/2`, `1/8`, `-5`, …) and the products
  with `60.0` are exactly representable in `f32`, so the rational
  computation agrees with the `f32` computation at those points.
* Rust's saturating/truncating float-to-`u64` cast `as u64` is embedded as
  `cast_u64` (negative values clamp to `0`, truncation toward zero,
  saturation at `2^64 - 1`).
* Each fallible external effect (opening the database, executing the
  schema batch, clap argument parsing, showing the notification, audio
  playback, the SQL `INSERT`) gets a Boolean outcome in an `Env` record;
  `run_main` is the resulting deterministic state/trace function of `main`.
* The observable behaviour is a trace of attempted effects (`Event` list),
  a process exit class (`Exit`), and the final state of the backing
  database (`Store`).  A run interrupted mid-countdown is a prefix
  (`List.take n`) of the trace.
-/

/-- `enum Mode { Focus, Rest }` from the source. -/
inductive Mode where
  | Focus : Mode
  | Rest : Mode
deriving DecidableEq

/-- `Mode::as_str` from the source. -/
def Mode.as_str : Mode → String
  | Mode.Focus => "focus"
  | Mode.Rest => "rest"

/-- `u64::MAX`, the saturation bound of Rust's `as u64` cast. -/
def u64_max : ℕ := 2 ^ 64 - 1

/-- Rust's `as u64` cast applied to a finite float value embedded as a
rational: truncation toward zero, negative values clamp to `0`, values of
`2^64` or more saturate to `u64::MAX`. -/
def cast_u64 (x : ℚ) : ℕ := min (Int.toNat ⌊x⌋) u64_max

/-- `let total_secs = (minutes * 60.0) as u64;` (src/main.rs line 88). -/
def total_secs (minutes : ℚ) : ℕ := cast_u64 (minutes * 60)

/-- One row of the `sessions` table: `(id INTEGER PRIMARY KEY AUTOINCREMENT,
start_iso TEXT NOT NULL, minutes FLOAT NOT NULL)`. -/
structure Row where
  id : ℕ
  start_iso : String
  minutes : ℚ
deriving DecidableEq

/-- The backing SQLite database `focus.db`: whether the `sessions` table
exists, its rows, and the next `AUTOINCREMENT` id. -/
structure Store where
  has_sessions_table : Bool
  rows : List Row
  next_id : ℕ
deriving DecidableEq

/-- A database file that does not yet contain the `sessions` table. -/
def emptyDisk : Store := ⟨false, [], 1⟩

/-- A `Store` reachable by this program: if the `sessions` table does not
exist then there are no session rows. -/
def Store.WF (s : Store) : Prop := s.has_sessions_table = false → s.rows = []

/-- `init_db` (src/main.rs lines 35-46): executes
`CREATE TABLE IF NOT EXISTS sessions (...)`.  If the table exists the
statement is a no-op; otherwise it creates the empty table with the
autoincrement counter starting at 1. -/
def init_db (s : Store) : Store :=
  if s.has_sessions_table then s else ⟨true, [], 1⟩

/-- `record_session` (src/main.rs lines 52-59): `INSERT INTO sessions
(start_iso, minutes) VALUES (?1, ?2)`.  The insert fails (`none`) when the
`sessions` table is missing; otherwise it appends one row with the next
autoincrement id. -/
def record_session_db (s : Store) (start_iso : String) (minutes : ℚ) : Option Store :=
  if s.has_sessions_table then
    some ⟨true, s.rows ++ [⟨s.next_id, start_iso, minutes⟩], s.next_id + 1⟩
  else none

/-- Observable effect attempts of one invocation of `main`, in program
order. -/
inductive Event where
  | openDb : Event
  | initDb : Event
  | parseArgs : Event
  | tick : ℕ → Event
  | finish : Event
  | notify : String → String → Event
  | play : Event
  | append : String → ℚ → Event
deriving DecidableEq

/-- Exit class of the process: `main` returned `Ok(())` (status 0), `main`
returned `Err` (status 1), a panic from `.unwrap()` (status 101), or clap
exited after rejecting the arguments (status 2).  All but `success` are
non-zero. -/
inductive Exit where
  | success : Exit
  | errExit : Exit
  | panicExit : Exit
  | usageExit : Exit
deriving DecidableEq

/-- Outcome of each fallible external effect of one run. -/
structure Env where
  open_ok : Bool
  init_ok : Bool
  parse_ok : Bool
  notify_ok : Bool
  play_ok : Bool
  append_ok : Bool
deriving DecidableEq

/-- The run in which every external effect succeeds. -/
def allOk : Env := ⟨true, true, true, true, true, true⟩

/-- The notification of src/main.rs lines 117-121: summary `"Timer up!"`,
body `"Your <mode> session is complete."`. -/
def notifyEvent (mode : Mode) : Event :=
  Event.notify "Timer up!" ("Your " ++ mode.as_str ++ " session is complete.")

/-- The tick events of the countdown loop (src/main.rs lines 109-112): the
progress bar position goes `1, 2, …, t`, one `inc(1)` per second. -/
def ticks (t : ℕ) : List Event := (List.range' 1 t).map Event.tick

/-- Events common to every run that reaches the countdown: open, schema
init, argument parsing, all ticks, the progress-bar finish, and the
notification attempt. -/
def preTrace (mode : Mode) (t : ℕ) : List Event :=
  [Event.openDb, Event.initDb, Event.parseArgs] ++ ticks t ++
    [Event.finish, notifyEvent mode]

/-- Shallow embedding of `main` (src/main.rs lines 61-129).  Control flow,
in source order: `Connection::open("focus.db")?` — `init_db(&conn)?` —
`Cli::parse()` (clap exits the process on failure) — the countdown loop —
`finish` — notification `.show().unwrap()` (a failure panics) —
`play_sound` (a failure is only printed) — `record_session(..)?`.
Returns the trace of attempted effects, the exit class, and the final
database state. -/
def run_main (env : Env) (mode : Mode) (minutes : ℚ) (start_iso : String)
    (db : Store) : List Event × Exit × Store :=
  if env.open_ok then
    if env.init_ok then
      let db1 := init_db db
      if env.parse_ok then
        let tr := preTrace mode (total_secs minutes)
        if env.notify_ok then
          let tr2 := tr ++ [Event.play, Event.append start_iso minutes]
          if env.append_ok then
            match record_session_db db1 start_iso minutes with
            | some db2 => (tr2, Exit.success, db2)
            | none => (tr2, Exit.errExit, db1)
          else (tr2, Exit.errExit, db1)
        else (tr, Exit.panicExit, db1)
      else ([Event.openDb, Event.initDb, Event.parseArgs], Exit.usageExit, db1)
    else ([Event.openDb, Event.initDb], Exit.errExit, db)
  else ([Event.openDb], Exit.errExit, db)

/-- The tick numbers delivered to the progress bar, in trace order. -/
def tickNums (l : List Event) : List ℕ :=
  l.filterMap fun e =>
    match e with
    | Event.tick n => some n
    | _ => none

/-- Whether an event is a store-append attempt. -/
def isAppendEv : Event → Bool
  | Event.append _ _ => true
  | _ => false

/-- Whether a trace contains a store-append attempt. -/
def hasAppendEv (l : List Event) : Bool := l.any isAppendEv

/-! ## Structural lemmas about `run_main` -/

theorem init_db_has_table (s : Store) : (init_db s).has_sessions_table = true := by
  unfold init_db
  cases h : s.has_sessions_table <;> simp [h]

theorem record_session_db_init (s : Store) (iso : String) (m : ℚ) :
    record_session_db (init_db s) iso m =
      some ⟨true, (init_db s).rows ++ [⟨(init_db s).next_id, iso, m⟩],
        (init_db s).next_id + 1⟩ := by
  simp [record_session_db, init_db_has_table]

theorem run_main_ok (env : Env) (mode : Mode) (m : ℚ) (iso : String) (db : Store)
    (h1 : env.open_ok = true) (h2 : env.init_ok = true) (h3 : env.parse_ok = true)
    (h4 : env.notify_ok = true) (h5 : env.append_ok = true) :
    run_main env mode m iso db =
      (preTrace mode (total_secs m) ++ [Event.play, Event.append iso m], Exit.success,
        ⟨true, (init_db db).rows ++ [⟨(init_db db).next_id, iso, m⟩],
          (init_db db).next_id + 1⟩) := by
  simp [run_main, h1, h2, h3, h4, h5, record_session_db_init]

theorem run_main_noNotify (env : Env) (mode : Mode) (m : ℚ) (iso : String) (db : Store)
    (h1 : env.open_ok = true) (h2 : env.init_ok = true) (h3 : env.parse_ok = true)
    (h4 : env.notify_ok = false) :
    run_main env mode m iso db =
      (preTrace mode (total_secs m), Exit.panicExit, init_db db) := by
  simp [run_main, h1, h2, h3, h4]

theorem run_main_noAppend (env : Env) (mode : Mode) (m : ℚ) (iso : String) (db : Store)
    (h1 : env.open_ok = true) (h2 : env.init_ok = true) (h3 : env.parse_ok = true)
    (h4 : env.notify_ok = true) (h5 : env.append_ok = false) :
    run_main env mode m iso db =
      (preTrace mode (total_secs m) ++ [Event.play, Event.append iso m], Exit.errExit,
        init_db db) := by
  simp [run_main, h1, h2, h3, h4, h5]

theorem run_main_noParse (env : Env) (mode : Mode) (m : ℚ) (iso : String) (db : Store)
    (h1 : env.open_ok = true) (h2 : env.init_ok = true) (h3 : env.parse_ok = false) :
    run_main env mode m iso db =
      ([Event.openDb, Event.initDb, Event.parseArgs], Exit.usageExit, init_db db) := by
  simp [run_main, h1, h2, h3]

theorem run_main_noInit (env : Env) (mode : Mode) (m : ℚ) (iso : String) (db : Store)
    (h1 : env.open_ok = true) (h2 : env.init_ok = false) :
    run_main env mode m iso db = ([Event.openDb, Event.initDb], Exit.errExit, db) := by
  simp [run_main, h1, h2]

theorem run_main_noOpen (env : Env) (mode : Mode) (m : ℚ) (iso : String) (db : Store)
    (h1 : env.open_ok = false) :
    run_main env mode m iso db = ([Event.openDb], Exit.errExit, db) := by
  simp [run_main, h1]

theorem tickNums_ticks (t : ℕ) : tickNums (ticks t) = List.range' 1 t := by
  simp [tickNums, ticks, List.filterMap_map]
  exact List.filterMap_some _

theorem tickNums_preTrace (mode : Mode) (t : ℕ) :
    tickNums (preTrace mode t) = List.range' 1 t := by
  simp [preTrace, tickNums, notifyEvent]
  have := tickNums_ticks t
  simpa [tickNums] using this

theorem tickNums_okTrace (mode : Mode) (t : ℕ) (iso : String) (m : ℚ) :
    tickNums (preTrace mode t ++ [Event.play, Event.append iso m]) = List.range' 1 t := by
  have := tickNums_preTrace mode t
  simp [tickNums] at this ⊢
  simp [this]

theorem no_append_in_preTrace (mode : Mode) (t : ℕ) :
    ∀ e ∈ preTrace mode t, isAppendEv e = false := by
  intro e he
  simp [preTrace, ticks, notifyEvent] at he
  rcases he with h | h | h | ⟨n, _, h⟩ | h | h <;> subst h <;> rfl

theorem no_append_before_append (mode : Mode) (t : ℕ) :
    ∀ e ∈ preTrace mode t ++ [Event.play], isAppendEv e = false := by
  intro e he
  rcases List.mem_append.mp he with h | h
  · exact no_append_in_preTrace mode t e h
  · simp at h
    subst h
    rfl

theorem hasAppendEv_take_sub (A : List Event) (x : Event) (n : ℕ)
    (hA : ∀ e ∈ A, isAppendEv e = false)
    (h : hasAppendEv ((A ++ [x]).take n) = true) :
    ∀ e ∈ A, e ∈ (A ++ [x]).take n := by
  rcases le_or_lt n A.length with hn | hn
  · exfalso
    rw [List.take_append_eq_append_take, Nat.sub_eq_zero_of_le hn] at h
    simp [hasAppendEv] at h
    obtain ⟨e, he, hp⟩ := h
    have : e ∈ A := List.mem_of_mem_take he
    rw [hA e this] at hp
    exact Bool.false_ne_true hp
  · intro e he
    rw [List.take_append_eq_append_take, List.take_of_length_le (Nat.le_of_lt hn)]
    exact List.mem_append_left _ he

theorem tick_mem_preTrace (mode : Mode) (t k : ℕ) (hk : k ∈ List.range' 1 t) :
    Event.tick k ∈ preTrace mode t := by
  unfold preTrace ticks
  exact List.mem_append_left _ (List.mem_append_right _ (List.mem_map_of_mem _ hk))

theorem notify_mem_preTrace (mode : Mode) (t : ℕ) :
    notifyEvent mode ∈ preTrace mode t := by
  unfold preTrace
  exact List.mem_append_right _ (by simp)

theorem hasAppendEv_take_eq_false (l : List Event)
    (hl : ∀ e ∈ l, isAppendEv e = false) (n : ℕ) :
    hasAppendEv (l.take n) = false := by
  simp only [hasAppendEv, List.any_eq_false]
  intro e he
  simp [hl e (List.mem_of_mem_take he)]

theorem filter_preTrace (mode : Mode) (t : ℕ) :
    (preTrace mode t).filter isAppendEv = [] :=
  List.filter_eq_nil_iff.mpr (by
    intro e he
    simp [no_append_in_preTrace mode t e he])

theorem filter_okTrace (mode : Mode) (t : ℕ) (iso : String) (m : ℚ) :
    (preTrace mode t ++ [Event.play, Event.append iso m]).filter isAppendEv =
      [Event.append iso m] := by
  rw [List.filter_append, filter_preTrace]
  rfl

theorem init_db_idem (s : Store) : init_db (init_db s) = init_db s := by
  cases hs : s.has_sessions_table <;> simp [init_db, hs]

/-! ## The claims -/

/-- C8: store initialization is idempotent — running the
`CREATE TABLE IF NOT EXISTS` schema step any number of times against the
same backing database neither alters nor duplicates the existing session
rows, and a subsequent insert still succeeds. -/
theorem C8_init_idempotent (s : Store) (h : s.WF) :
    (∀ n : ℕ, init_db^[n] (init_db s) = init_db s) ∧
    (init_db s).rows = s.rows ∧
    (∀ iso m, record_session_db (init_db s) iso m ≠ none) := by
  refine ⟨?_, ?_, ?_⟩
  · intro n
    induction n with
    | zero => rfl
    | succ k ih => rw [Function.iterate_succ_apply', ih, init_db_idem]
  · cases hs : s.has_sessions_table
    · simp [init_db, hs, h hs]
    · simp [init_db, hs]
  · intro iso m
    simp [record_session_db_init]

/-- C8 witness: a store holding one session row, with the table present. -/
theorem C8_init_idempotent_witness :
    (⟨true, [⟨1, "2025-05-30T14:23:00+00:00", 25⟩], 2⟩ : Store).WF ∧
    ((∀ n : ℕ, init_db^[n] (init_db ⟨true, [⟨1, "2025-05-30T14:23:00+00:00", 25⟩], 2⟩) =
        init_db ⟨true, [⟨1, "2025-05-30T14:23:00+00:00", 25⟩], 2⟩) ∧
      (init_db (⟨true, [⟨1, "2025-05-30T14:23:00+00:00", 25⟩], 2⟩ : Store)).rows =
        (⟨true, [⟨1, "2025-05-30T14:23:00+00:00", 25⟩], 2⟩ : Store).rows ∧
      (∀ iso m, record_session_db
        (init_db ⟨true, [⟨1, "2025-05-30T14:23:00+00:00", 25⟩], 2⟩) iso m ≠ none)) :=
  ⟨by simp [Store.WF], C8_init_idempotent _ (by simp [Store.WF])⟩

/-- C5: whenever the store cannot be initialized (opening `focus.db` fails,
or the schema batch fails) or the append of the completed session fails,
`main` propagates the error (`?`) and the process exits with a non-zero
status. -/
theorem C5_store_failure_fatal (env : Env) (mode : Mode) (m : ℚ) (iso : String)
    (db : Store)
    (h : env.open_ok = false ∨ env.init_ok = false ∨
      (env.parse_ok = true ∧ env.notify_ok = true ∧ env.append_ok = false)) :
    (run_main env mode m iso db).2.1 ≠ Exit.success := by
  rcases h with h | h | ⟨hp, hn, ha⟩
  · rw [run_main_noOpen env mode m iso db h]
    simp
  · cases ho : env.open_ok
    · rw [run_main_noOpen env mode m iso db ho]
      simp
    · rw [run_main_noInit env mode m iso db ho h]
      simp
  · cases ho : env.open_ok
    · rw [run_main_noOpen env mode m iso db ho]
      simp
    · cases hi : env.init_ok
      · rw [run_main_noInit env mode m iso db ho hi]
        simp
      · rw [run_main_noAppend env mode m iso db ho hi hp hn ha]
        simp

/-- C5 witness: the append fails in an otherwise successful run. -/
theorem C5_store_failure_fatal_witness :
    (⟨true, true, true, true, true, false⟩ : Env).append_ok = false ∧
    (run_main ⟨true, true, true, true, true, false⟩ Mode.Focus 1
      "2025-05-30T14:23:00+00:00" emptyDisk).2.1 ≠ Exit.success :=
  ⟨rfl, C5_store_failure_fatal _ _ _ _ _ (Or.inr (Or.inr ⟨rfl, rfl, rfl⟩))⟩

/-- C7: for `minutes = 0`, zero ticks are delivered to the progress bar and
the completion actions — notification, sound, store append — still run. -/
theorem C7_zero_minutes (env : Env) (mode : Mode) (iso : String) (db : Store)
    (h1 : env.open_ok = true) (h2 : env.init_ok = true) (h3 : env.parse_ok = true)
    (h4 : env.notify_ok = true) :
    tickNums (run_main env mode 0 iso db).1 = [] ∧
    notifyEvent mode ∈ (run_main env mode 0 iso db).1 ∧
    Event.play ∈ (run_main env mode 0 iso db).1 ∧
    Event.append iso 0 ∈ (run_main env mode 0 iso db).1 := by
  have ht : total_secs 0 = 0 := by simp [total_secs, cast_u64]
  have hmem : notifyEvent mode ∈ preTrace mode (total_secs 0) :=
    notify_mem_preTrace mode (total_secs 0)
  cases ha : env.append_ok
  · rw [run_main_noAppend env mode 0 iso db h1 h2 h3 h4 ha]
    refine ⟨?_, List.mem_append_left _ hmem, ?_, ?_⟩
    · rw [tickNums_okTrace, ht]
      rfl
    · simp
    · simp
  · rw [run_main_ok env mode 0 iso db h1 h2 h3 h4 ha]
    refine ⟨?_, List.mem_append_left _ hmem, ?_, ?_⟩
    · rw [tickNums_okTrace, ht]
      rfl
    · simp
    · simp

/-- C7 witness: `minutes = 0` in the fully successful run. -/
theorem C7_zero_minutes_witness :
    allOk.open_ok = true ∧ allOk.notify_ok = true ∧
    (tickNums (run_main allOk Mode.Focus 0 "2025-05-30T14:23:00+00:00" emptyDisk).1 = [] ∧
      notifyEvent Mode.Focus ∈
        (run_main allOk Mode.Focus 0 "2025-05-30T14:23:00+00:00" emptyDisk).1 ∧
      Event.play ∈ (run_main allOk Mode.Focus 0 "2025-05-30T14:23:00+00:00" emptyDisk).1 ∧
      Event.append "2025-05-30T14:23:00+00:00" 0 ∈
        (run_main allOk Mode.Focus 0 "2025-05-30T14:23:00+00:00" emptyDisk).1) :=
  ⟨rfl, rfl, C7_zero_minutes allOk Mode.Focus "2025-05-30T14:23:00+00:00" emptyDisk
    rfl rfl rfl rfl⟩

/-- C9: the mode (Focus vs Rest) influences only the displayed and
notification text — `record_session` receives no mode.  For equal start
time and duration, the final database state, the exit status, and the
sequence of store-append attempts are identical regardless of mode. -/
theorem C9_mode_not_persisted (env : Env) (m : ℚ) (iso : String) (db : Store)
    (mode₁ mode₂ : Mode) :
    (run_main env mode₁ m iso db).2.2 = (run_main env mode₂ m iso db).2.2 ∧
    (run_main env mode₁ m iso db).2.1 = (run_main env mode₂ m iso db).2.1 ∧
    (run_main env mode₁ m iso db).1.filter isAppendEv =
      (run_main env mode₂ m iso db).1.filter isAppendEv := by
  cases ho : env.open_ok
  · rw [run_main_noOpen env mode₁ m iso db ho, run_main_noOpen env mode₂ m iso db ho]
    exact ⟨rfl, rfl, rfl⟩
  · cases hi : env.init_ok
    · rw [run_main_noInit env mode₁ m iso db ho hi,
        run_main_noInit env mode₂ m iso db ho hi]
      exact ⟨rfl, rfl, rfl⟩
    · cases hp : env.parse_ok
      · rw [run_main_noParse env mode₁ m iso db ho hi hp,
          run_main_noParse env mode₂ m iso db ho hi hp]
        exact ⟨rfl, rfl, rfl⟩
      · cases hn : env.notify_ok
        · rw [run_main_noNotify env mode₁ m iso db ho hi hp hn,
            run_main_noNotify env mode₂ m iso db ho hi hp hn]
          exact ⟨rfl, rfl, by rw [filter_preTrace, filter_preTrace]⟩
        · cases ha : env.append_ok
          · rw [run_main_noAppend env mode₁ m iso db ho hi hp hn ha,
              run_main_noAppend env mode₂ m iso db ho hi hp hn ha]
            exact ⟨rfl, rfl, by rw [filter_okTrace, filter_okTrace]⟩
          · rw [run_main_ok env mode₁ m iso db ho hi hp hn ha,
              run_main_ok env mode₂ m iso db ho hi hp hn ha]
            exact ⟨rfl, rfl, by rw [filter_okTrace, filter_okTrace]⟩

/-- C10 (implicit): `Connection::open("focus.db")` and `init_db` run before
`Cli::parse()` (src/main.rs lines 62-65): the first three events of every
run that gets past the store setup are open, schema-init, parse — and when
argument parsing rejects the input, the database has nevertheless been
created and initialized, and the process exits non-zero without a
countdown. -/
theorem C10_db_initialized_before_parse (env : Env) (mode : Mode) (m : ℚ)
    (iso : String) (db : Store) (h1 : env.open_ok = true) (h2 : env.init_ok = true) :
    (run_main env mode m iso db).1.take 3 =
      [Event.openDb, Event.initDb, Event.parseArgs] ∧
    (env.parse_ok = false →
      (run_main env mode m iso db).1 = [Event.openDb, Event.initDb, Event.parseArgs] ∧
      (run_main env mode m iso db).2.2 = init_db db ∧
      ((run_main env mode m iso db).2.2).has_sessions_table = true ∧
      (run_main env mode m iso db).2.1 = Exit.usageExit) := by
  cases hp : env.parse_ok
  · rw [run_main_noParse env mode m iso db h1 h2 hp]
    exact ⟨rfl, fun _ => ⟨rfl, rfl, init_db_has_table db, rfl⟩⟩
  · constructor
    · cases hn : env.notify_ok
      · rw [run_main_noNotify env mode m iso db h1 h2 hp hn]
        simp [preTrace]
      · cases ha : env.append_ok
        · rw [run_main_noAppend env mode m iso db h1 h2 hp hn ha]
          simp [preTrace]
        · rw [run_main_ok env mode m iso db h1 h2 hp hn ha]
          simp [preTrace]
    · intro hcon
      exact absurd hcon (by simp)

/-- C10 witness: parsing fails (e.g. `minutes = "-5"`, rejected by clap),
yet the database was opened and its schema created first. -/
theorem C10_db_initialized_before_parse_witness :
    (⟨true, true, false, true, true, true⟩ : Env).open_ok = true ∧
    (⟨true, true, false, true, true, true⟩ : Env).parse_ok = false ∧
    ((run_main ⟨true, true, false, true, true, true⟩ Mode.Rest (-5)
        "2025-05-30T14:23:00+00:00" emptyDisk).1.take 3 =
      [Event.openDb, Event.initDb, Event.parseArgs] ∧
    (run_main ⟨true, true, false, true, true, true⟩ Mode.Rest (-5)
        "2025-05-30T14:23:00+00:00" emptyDisk).1 =
      [Event.openDb, Event.initDb, Event.parseArgs] ∧
    (run_main ⟨true, true, false, true, true, true⟩ Mode.Rest (-5)
        "2025-05-30T14:23:00+00:00" emptyDisk).2.2 = init_db emptyDisk ∧
    ((run_main ⟨true, true, false, true, true, true⟩ Mode.Rest (-5)
        "2025-05-30T14:23:00+00:00" emptyDisk).2.2).has_sessions_table = true ∧
    (run_main ⟨true, true, false, true, true, true⟩ Mode.Rest (-5)
        "2025-05-30T14:23:00+00:00" emptyDisk).2.1 = Exit.usageExit) :=
  ⟨rfl, rfl, by
    have h := C10_db_initialized_before_parse ⟨true, true, false, true, true, true⟩
      Mode.Rest (-5) "2025-05-30T14:23:00+00:00" emptyDisk rfl rfl
    exact ⟨h.1, h.2 rfl⟩⟩

/-- C1 counterexample: in a completed countdown where the notification
fails, the `.unwrap()` on `Notification::show()` (src/main.rs line 121)
panics: the store append is never attempted and the process does not exit
with status 0 — even though the append would have succeeded. -/
theorem C1_cex_notifier_failure_blocks_append :
    hasAppendEv (run_main ⟨true, true, true, false, true, true⟩ Mode.Focus 1
      "2025-05-30T14:23:00+00:00" emptyDisk).1 = false ∧
    (run_main ⟨true, true, true, false, true, true⟩ Mode.Focus 1
      "2025-05-30T14:23:00+00:00" emptyDisk).2.1 = Exit.panicExit := by
  rw [run_main_noNotify _ _ _ _ _ rfl rfl rfl rfl]
  refine ⟨?_, rfl⟩
  simp only [hasAppendEv, List.any_eq_false]
  intro e he
  simp [no_append_in_preTrace Mode.Focus _ e he]

/-- C1 amended: a Sound Player failure never prevents the store append from
being attempted — `play_ok` does not occur in the control flow at all, its
error is only printed — and the process still exits 0 if the append
succeeds.  A Completion Notifier failure, however, panics the process
before the sound and the append: neither is attempted and the exit status
is non-zero. -/
theorem C1_amended_best_effort_policy (env : Env) (mode : Mode) (m : ℚ)
    (iso : String) (db : Store) (h1 : env.open_ok = true) (h2 : env.init_ok = true)
    (h3 : env.parse_ok = true) :
    (env.notify_ok = true →
      hasAppendEv (run_main env mode m iso db).1 = true ∧
      (env.append_ok = true → (run_main env mode m iso db).2.1 = Exit.success)) ∧
    (env.notify_ok = false →
      hasAppendEv (run_main env mode m iso db).1 = false ∧
      (run_main env mode m iso db).2.1 = Exit.panicExit) := by
  constructor
  · intro hn
    cases ha : env.append_ok
    · rw [run_main_noAppend env mode m iso db h1 h2 h3 hn ha]
      refine ⟨?_, fun hcon => absurd hcon (by simp)⟩
      simp [hasAppendEv, isAppendEv]
    · rw [run_main_ok env mode m iso db h1 h2 h3 hn ha]
      exact ⟨by simp [hasAppendEv, isAppendEv], fun _ => rfl⟩
  · intro hn
    rw [run_main_noNotify env mode m iso db h1 h2 h3 hn]
    refine ⟨?_, rfl⟩
    simp only [hasAppendEv, List.any_eq_false]
    intro e he
    simp [no_append_in_preTrace mode _ e he]

/-- C1 witness: the sound fails but everything else succeeds — the append
is attempted and the run exits 0. -/
theorem C1_amended_best_effort_policy_witness :
    (⟨true, true, true, true, false, true⟩ : Env).open_ok = true ∧
    (⟨true, true, true, true, false, true⟩ : Env).play_ok = false ∧
    (hasAppendEv (run_main ⟨true, true, true, true, false, true⟩ Mode.Focus 1
        "2025-05-30T14:23:00+00:00" emptyDisk).1 = true ∧
      (run_main ⟨true, true, true, true, false, true⟩ Mode.Focus 1
        "2025-05-30T14:23:00+00:00" emptyDisk).2.1 = Exit.success) :=
  ⟨rfl, rfl, by
    have h := (C1_amended_best_effort_policy ⟨true, true, true, true, false, true⟩
      Mode.Focus 1 "2025-05-30T14:23:00+00:00" emptyDisk rfl rfl rfl).1 rfl
    exact ⟨h.1, h.2 rfl⟩⟩

/-- C2 counterexample: `(minutes * 60.0) as u64` truncates, it does not
round.  For `minutes = 1/8` (an exact `f32` value, product `7.5` exact),
the countdown delivers 7 ticks while `round(minutes * 60) = 8`. -/
theorem C2_cex_truncation_vs_round :
    tickNums (run_main allOk Mode.Focus (1/8) "2025-05-30T14:23:00+00:00" emptyDisk).1 =
      [1, 2, 3, 4, 5, 6, 7] ∧
    round ((1/8 : ℚ) * 60) = 8 := by
  have ht : total_secs (1/8) = 7 := by
    norm_num [total_secs, cast_u64, u64_max]
    rfl
  constructor
  · rw [run_main_ok allOk Mode.Focus (1/8) _ _ rfl rfl rfl rfl rfl]
    rw [tickNums_okTrace, ht]
    rfl
  · norm_num [round_eq]

/-- C2 amended: for every `minutes > 0`, the countdown delivers exactly
`total_secs minutes` ticks — the truncation `(minutes * 60.0) as u64`, not
the rounding, of `minutes * 60` — to the progress bar, strictly increasing
as `1, 2, …, total_secs minutes`, with no duplicated and no skipped
ticks. -/
theorem C2_amended_truncated_tick_count (minutes : ℚ) (env : Env) (mode : Mode)
    (iso : String) (db : Store) (_hm : 0 < minutes) (h1 : env.open_ok = true)
    (h2 : env.init_ok = true) (h3 : env.parse_ok = true) :
    tickNums (run_main env mode minutes iso db).1 = List.range' 1 (total_secs minutes) ∧
    (tickNums (run_main env mode minutes iso db).1).length = total_secs minutes ∧
    List.Pairwise (· < ·) (tickNums (run_main env mode minutes iso db).1) := by
  have key : tickNums (run_main env mode minutes iso db).1 =
      List.range' 1 (total_secs minutes) := by
    cases hn : env.notify_ok
    · rw [run_main_noNotify env mode minutes iso db h1 h2 h3 hn]
      exact tickNums_preTrace mode (total_secs minutes)
    · cases ha : env.append_ok
      · rw [run_main_noAppend env mode minutes iso db h1 h2 h3 hn ha]
        exact tickNums_okTrace mode (total_secs minutes) iso minutes
      · rw [run_main_ok env mode minutes iso db h1 h2 h3 hn ha]
        exact tickNums_okTrace mode (total_secs minutes) iso minutes
  refine ⟨key, ?_, ?_⟩
  · rw [key, List.length_range']
  · rw [key]
    exact List.pairwise_lt_range' 1 (total_secs minutes)

/-- C2 witness: one minute yields the ticks `1..60`. -/
theorem C2_amended_truncated_tick_count_witness :
    (0 : ℚ) < 1 ∧
    (tickNums (run_main allOk Mode.Focus 1 "2025-05-30T14:23:00+00:00" emptyDisk).1 =
        List.range' 1 (total_secs 1) ∧
      (tickNums (run_main allOk Mode.Focus 1
        "2025-05-30T14:23:00+00:00" emptyDisk).1).length = total_secs 1 ∧
      List.Pairwise (· < ·) (tickNums (run_main allOk Mode.Focus 1
        "2025-05-30T14:23:00+00:00" emptyDisk).1)) :=
  ⟨by norm_num, C2_amended_truncated_tick_count 1 allOk Mode.Focus
    "2025-05-30T14:23:00+00:00" emptyDisk (by norm_num) rfl rfl rfl⟩

theorem total_secs_nonpos (minutes : ℚ) (hm : minutes ≤ 0) : total_secs minutes = 0 := by
  have h60 : minutes * 60 ≤ 0 := mul_nonpos_iff.mpr (Or.inr ⟨hm, by norm_num⟩)
  have hf : ⌊minutes * 60⌋ ≤ 0 := by
    have := Int.floor_le_floor h60
    simpa using this
  simp [total_secs, cast_u64, Int.toNat_of_nonpos hf]

/-- C3 counterexample: the program performs no validation of `minutes`.
For the non-positive value `minutes = 0` (accepted by the CLI parser), the
countdown is not rejected: the run proceeds to completion, appends a row
with `minutes = 0` to the store, and exits with status 0. -/
theorem C3_cex_nonpositive_not_rejected :
    (run_main allOk Mode.Rest 0 "2025-05-30T14:23:00+00:00" emptyDisk).2.1 =
      Exit.success ∧
    hasAppendEv (run_main allOk Mode.Rest 0 "2025-05-30T14:23:00+00:00" emptyDisk).1 =
      true ∧
    (run_main allOk Mode.Rest 0 "2025-05-30T14:23:00+00:00" emptyDisk).2.2.rows =
      [⟨1, "2025-05-30T14:23:00+00:00", 0⟩] := by
  rw [run_main_ok allOk Mode.Rest 0 _ _ rfl rfl rfl rfl rfl]
  refine ⟨rfl, ?_, by simp [init_db, emptyDisk]⟩
  simp [hasAppendEv, isAppendEv]

/-- C3 amended: no validation of `minutes` exists in the code.  For every
non-positive `minutes` value that reaches the countdown, the truncating
cast yields zero ticks, the completion side effects are all still
attempted, and the process exits 0 when they succeed — the input is never
rejected.  (A non-finite `f32` is likewise not rejected: `NaN as u64` is
`0` and the run completes immediately; `+∞ as u64` saturates to
`u64::MAX`.) -/
theorem C3_amended_no_input_validation (minutes : ℚ) (env : Env) (mode : Mode)
    (iso : String) (db : Store) (hm : minutes ≤ 0) (h1 : env.open_ok = true)
    (h2 : env.init_ok = true) (h3 : env.parse_ok = true) (h4 : env.notify_ok = true)
    (h5 : env.append_ok = true) :
    tickNums (run_main env mode minutes iso db).1 = [] ∧
    hasAppendEv (run_main env mode minutes iso db).1 = true ∧
    (run_main env mode minutes iso db).2.1 = Exit.success := by
  have ht : total_secs minutes = 0 := total_secs_nonpos minutes hm
  rw [run_main_ok env mode minutes iso db h1 h2 h3 h4 h5]
  refine ⟨?_, ?_, rfl⟩
  · rw [tickNums_okTrace, ht]
    rfl
  · simp [hasAppendEv, isAppendEv]

/-- C3 witness: `minutes = -5` (the spec's own scenario input). -/
theorem C3_amended_no_input_validation_witness :
    (-5 : ℚ) ≤ 0 ∧
    (tickNums (run_main allOk Mode.Rest (-5) "2025-05-30T14:23:00+00:00" emptyDisk).1 =
        [] ∧
      hasAppendEv (run_main allOk Mode.Rest (-5)
        "2025-05-30T14:23:00+00:00" emptyDisk).1 = true ∧
      (run_main allOk Mode.Rest (-5) "2025-05-30T14:23:00+00:00" emptyDisk).2.1 =
        Exit.success) :=
  ⟨by norm_num, C3_amended_no_input_validation (-5) allOk Mode.Rest
    "2025-05-30T14:23:00+00:00" emptyDisk (by norm_num) rfl rfl rfl rfl rfl⟩

theorem okTrace_take_property (mode : Mode) (t : ℕ) (iso : String) (m : ℚ) (n : ℕ)
    (hap : hasAppendEv
      ((preTrace mode t ++ [Event.play, Event.append iso m]).take n) = true) :
    (∀ k ∈ List.range' 1 t,
      Event.tick k ∈ (preTrace mode t ++ [Event.play, Event.append iso m]).take n) ∧
    notifyEvent mode ∈ (preTrace mode t ++ [Event.play, Event.append iso m]).take n ∧
    Event.play ∈ (preTrace mode t ++ [Event.play, Event.append iso m]).take n := by
  have hsplit : preTrace mode t ++ [Event.play, Event.append iso m] =
      (preTrace mode t ++ [Event.play]) ++ [Event.append iso m] := by simp
  rw [hsplit] at hap ⊢
  have hsub := hasAppendEv_take_sub (preTrace mode t ++ [Event.play])
    (Event.append iso m) n (no_append_before_append mode t) hap
  refine ⟨?_, ?_, ?_⟩
  · intro k hk
    exact hsub _ (List.mem_append_left _ (tick_mem_preTrace mode t k hk))
  · exact hsub _ (List.mem_append_left _ (notify_mem_preTrace mode t))
  · exact hsub _ (by simp)

/-- C4 counterexample: a countdown that reaches its final tick with a
failing Notifier appends no row at all — refuting "a row is appended if
and only if the countdown reached its final tick".  With
`minutes = 1/2` the final tick `30` is delivered, yet the store still has
zero rows (the append is not even attempted: the notification `.unwrap()`
panics first). -/
theorem C4_cex_completed_but_unrecorded :
    30 ∈ tickNums (run_main ⟨true, true, true, false, true, true⟩ Mode.Focus (1/2)
      "2025-05-30T14:23:00+00:00" emptyDisk).1 ∧
    (run_main ⟨true, true, true, false, true, true⟩ Mode.Focus (1/2)
      "2025-05-30T14:23:00+00:00" emptyDisk).2.2.rows = [] := by
  have ht : total_secs (1/2) = 30 := by
    norm_num [total_secs, cast_u64, u64_max]
    rfl
  rw [run_main_noNotify _ _ _ _ _ rfl rfl rfl rfl]
  constructor
  · rw [tickNums_preTrace, ht]
    decide
  · simp [init_db, emptyDisk]

/-- C4 amended: at most one row is ever appended, and only with the full
countdown already delivered and the Notifier and Player attempts already
in the trace: any interrupted prefix of the run that contains the append
attempt contains every tick, the notification and the playback.  A new
row lands in the store exactly when the Notifier succeeded (its failure
panics before the append) and the insert itself succeeded; in every other
run the store is left unchanged after schema init — in particular a run
interrupted before the final tick has appended nothing. -/
theorem C4_amended_append_once_after_completion (env : Env) (mode : Mode) (m : ℚ)
    (iso : String) (db : Store) (h1 : env.open_ok = true) (h2 : env.init_ok = true)
    (h3 : env.parse_ok = true) :
    (run_main env mode m iso db).2.2 =
      (if env.notify_ok = true ∧ env.append_ok = true then
        (⟨true, (init_db db).rows ++ [⟨(init_db db).next_id, iso, m⟩],
          (init_db db).next_id + 1⟩ : Store)
      else init_db db) ∧
    (∀ n : ℕ, hasAppendEv ((run_main env mode m iso db).1.take n) = true →
      (∀ k ∈ List.range' 1 (total_secs m),
        Event.tick k ∈ (run_main env mode m iso db).1.take n) ∧
      notifyEvent mode ∈ (run_main env mode m iso db).1.take n ∧
      Event.play ∈ (run_main env mode m iso db).1.take n) := by
  cases hn : env.notify_ok
  · rw [run_main_noNotify env mode m iso db h1 h2 h3 hn]
    refine ⟨by simp [hn], ?_⟩
    intro n hcon
    rw [hasAppendEv_take_eq_false _ (no_append_in_preTrace mode _) n] at hcon
    exact absurd hcon (by simp)
  · cases ha : env.append_ok
    · rw [run_main_noAppend env mode m iso db h1 h2 h3 hn ha]
      exact ⟨by simp [hn, ha], fun n hap => okTrace_take_property mode _ iso m n hap⟩
    · rw [run_main_ok env mode m iso db h1 h2 h3 hn ha]
      exact ⟨by simp [hn, ha], fun n hap => okTrace_take_property mode _ iso m n hap⟩

/-- C4 witness: the fully successful one-minute run. -/
theorem C4_amended_append_once_after_completion_witness :
    allOk.open_ok = true ∧
    ((run_main allOk Mode.Focus 1 "2025-05-30T14:23:00+00:00" emptyDisk).2.2 =
      (if allOk.notify_ok = true ∧ allOk.append_ok = true then
        (⟨true, (init_db emptyDisk).rows ++
          [⟨(init_db emptyDisk).next_id, "2025-05-30T14:23:00+00:00", 1⟩],
          (init_db emptyDisk).next_id + 1⟩ : Store)
      else init_db emptyDisk) ∧
    (∀ n : ℕ, hasAppendEv
        ((run_main allOk Mode.Focus 1 "2025-05-30T14:23:00+00:00" emptyDisk).1.take n) =
        true →
      (∀ k ∈ List.range' 1 (total_secs 1),
        Event.tick k ∈
          (run_main allOk Mode.Focus 1 "2025-05-30T14:23:00+00:00" emptyDisk).1.take n) ∧
      notifyEvent Mode.Focus ∈
        (run_main allOk Mode.Focus 1 "2025-05-30T14:23:00+00:00" emptyDisk).1.take n ∧
      Event.play ∈
        (run_main allOk Mode.Focus 1 "2025-05-30T14:23:00+00:00" emptyDisk).1.take n)) :=
  ⟨rfl, C4_amended_append_once_after_completion allOk Mode.Focus 1
    "2025-05-30T14:23:00+00:00" emptyDisk rfl rfl rfl⟩

/-- C6 counterexample: a completed countdown (`minutes = 1/4`, final tick
`15` delivered) on which the Notifier fails invokes neither the Sound
Player nor the Session Store append — the three actions are not all
invoked, refuting the claim as stated. -/
theorem C6_cex_player_and_append_skipped :
    15 ∈ tickNums (run_main ⟨true, true, true, false, true, true⟩ Mode.Rest (1/4)
      "2025-05-30T14:23:00+00:00" emptyDisk).1 ∧
    Event.play ∉ (run_main ⟨true, true, true, false, true, true⟩ Mode.Rest (1/4)
      "2025-05-30T14:23:00+00:00" emptyDisk).1 ∧
    hasAppendEv (run_main ⟨true, true, true, false, true, true⟩ Mode.Rest (1/4)
      "2025-05-30T14:23:00+00:00" emptyDisk).1 = false := by
  have ht : total_secs (1/4) = 15 := by
    norm_num [total_secs, cast_u64, u64_max]
    rfl
  rw [run_main_noNotify _ _ _ _ _ rfl rfl rfl rfl]
  refine ⟨?_, ?_, ?_⟩
  · rw [tickNums_preTrace, ht]
    decide
  · simp [preTrace, ticks, notifyEvent]
  · simp only [hasAppendEv, List.any_eq_false]
    intro e he
    simp [no_append_in_preTrace Mode.Rest _ e he]

/-- C6 amended: when the Notifier succeeds, the three completion actions
occur exactly once each, in the fixed order (1) notification,
(2) sound playback, (3) store append, as the final three events of the
trace; when the Notifier fails, the process panics right after the
notification attempt and neither the Player nor the append is invoked. -/
theorem C6_amended_fixed_order (env : Env) (mode : Mode) (m : ℚ) (iso : String)
    (db : Store) (h1 : env.open_ok = true) (h2 : env.init_ok = true)
    (h3 : env.parse_ok = true) :
    (env.notify_ok = true →
      ∃ p, (run_main env mode m iso db).1 =
          p ++ [notifyEvent mode, Event.play, Event.append iso m] ∧
        notifyEvent mode ∉ p ∧ Event.play ∉ p ∧ hasAppendEv p = false) ∧
    (env.notify_ok = false →
      ∃ p, (run_main env mode m iso db).1 = p ++ [notifyEvent mode] ∧
        Event.play ∉ (run_main env mode m iso db).1 ∧
        hasAppendEv (run_main env mode m iso db).1 = false) := by
  constructor
  · intro hn
    have hshape : preTrace mode (total_secs m) ++ [Event.play, Event.append iso m] =
        ([Event.openDb, Event.initDb, Event.parseArgs] ++ ticks (total_secs m) ++
          [Event.finish]) ++ [notifyEvent mode, Event.play, Event.append iso m] := by
      simp [preTrace]
    have hclean :
        notifyEvent mode ∉ ([Event.openDb, Event.initDb, Event.parseArgs] ++
            ticks (total_secs m) ++ [Event.finish]) ∧
        Event.play ∉ ([Event.openDb, Event.initDb, Event.parseArgs] ++
            ticks (total_secs m) ++ [Event.finish]) ∧
        hasAppendEv ([Event.openDb, Event.initDb, Event.parseArgs] ++
            ticks (total_secs m) ++ [Event.finish]) = false := by
      refine ⟨by simp [ticks, notifyEvent], by simp [ticks], ?_⟩
      simp only [hasAppendEv, List.any_eq_false]
      intro e he
      simp [ticks] at he
      rcases he with h | h | h | ⟨k, _, h⟩ | h <;> subst h <;> simp [isAppendEv]
    cases ha : env.append_ok
    · rw [run_main_noAppend env mode m iso db h1 h2 h3 hn ha]
      exact ⟨_, hshape, hclean.1, hclean.2.1, hclean.2.2⟩
    · rw [run_main_ok env mode m iso db h1 h2 h3 hn ha]
      exact ⟨_, hshape, hclean.1, hclean.2.1, hclean.2.2⟩
  · intro hn
    rw [run_main_noNotify env mode m iso db h1 h2 h3 hn]
    refine ⟨[Event.openDb, Event.initDb, Event.parseArgs] ++ ticks (total_secs m) ++
      [Event.finish], by simp [preTrace], by simp [preTrace, ticks, notifyEvent], ?_⟩
    simp only [hasAppendEv, List.any_eq_false]
    intro e he
    simp [no_append_in_preTrace mode _ e he]

/-- C6 witness: the fully successful one-minute run ends with the three
actions in order. -/
theorem C6_amended_fixed_order_witness :
    allOk.notify_ok = true ∧
    (∃ p, (run_main allOk Mode.Focus 1 "2025-05-30T14:23:00+00:00" emptyDisk).1 =
        p ++ [notifyEvent Mode.Focus, Event.play,
          Event.append "2025-05-30T14:23:00+00:00" 1] ∧
      notifyEvent Mode.Focus ∉ p ∧ Event.play ∉ p ∧ hasAppendEv p = false) :=
  ⟨rfl, (C6_amended_fixed_order allOk Mode.Focus 1 "2025-05-30T14:23:00+00:00"
    emptyDisk rfl rfl rfl).1 rfl⟩
